import Mathlib

/-!
Verification of the bootstrap/dispatch layer of the target-process MCP server
(`src/server.ts` and its unnamed sibling variant).  The TypeScript source is
shallowly embedded: environment and filesystem become explicit parameters,
thrown JavaScript values become an explicit error type, and the two request
handlers become pure functions from a runtime state.
-/

namespace TPServer

/-- JavaScript truthiness of an optional string value (`undefined` and the
empty string are falsy, every other string is truthy). -/
def truthy : Option String → Bool
  | none => false
  | some s => !s.isEmpty

/-- The process environment slice read by `loadConfig`:
`process.env.TP_DOMAIN` and `process.env.TP_TOKEN`. -/
structure Env where
  tpDomain : Option String
  tpToken : Option String
deriving DecidableEq, Repr

/-- The (optional) `credentials` object of a parsed configuration JSON. -/
structure CredJson where
  token : Option String
deriving DecidableEq, Repr

/-- A parsed configuration object: `{ domain?, credentials?: { token? } }`.
The environment-based path of `loadConfig` produces this shape with all
fields present; the file-based path returns whatever was parsed. -/
structure ParsedJson where
  domain : Option String
  credentials : Option CredJson
deriving DecidableEq, Repr

/-- A thrown JavaScript value, as classified by the catch blocks in the
source: an `McpError` from the protocol SDK (which carries a defined error
code), any other `Error` instance, or a non-`Error` value (kept as its
`String(...)` form). -/
inductive JsError where
  | mcpError (code : Int) (message : String)
  | plainError (message : String)
  | nonError (str : String)
deriving DecidableEq, Repr

/-- The test `error instanceof McpError`. -/
def JsError.isMcpError : JsError → Bool
  | .mcpError _ _ => true
  | _ => false

/-- The expression `error instanceof Error ? error.message : String(error)`.  An `McpError`
is an `Error`; the SDK's `McpError` constructor sets its `message` field to
the string `MCP error <code>: <message>`. -/
def JsError.messageOrString : JsError → String
  | .mcpError code message => "MCP error " ++ toString code ++ ": " ++ message
  | .plainError message => message
  | .nonError str => str

/-- Value of `ErrorCode.InternalError` from the protocol SDK (JSON-RPC internal error). -/
def internalErrorCode : Int := -32603

/-- Value of `ErrorCode.MethodNotFound` from the protocol SDK. -/
def methodNotFoundCode : Int := -32601

/-- State of the configuration file at a given path: absent
(`fs.existsSync` is false), present but not valid JSON (`JSON.parse` throws
a `SyntaxError` with the given message), or present and parsed. -/
inductive FileState where
  | missing
  | malformed (parseMessage : String)
  | parsed (config : ParsedJson)
deriving DecidableEq, Repr

/-- The path `path.join(__dirname, '..', 'config', 'targetprocess.json')`: the fixed
config-file path relative to the module's own directory.  (Node's
`path.join` also normalizes the `..` segment; the unnormalized string
denotes the same file and is kept as-is here.) -/
def configPath (dirname : String) : String :=
  dirname ++ "/../config/targetprocess.json"

/-- Message of the `McpError` thrown by `loadConfig` (server.ts variant)
when the env vars are not both set and the config file does not exist. -/
def noConfigMessage : String :=
  "No configuration found. Please set environment variables (TP_DOMAIN and TP_TOKEN) or create config/targetprocess.json"

/-- Message of the `McpError` thrown inside the `try` block of `loadConfig`
(server.ts variant) when the parsed config has no truthy
`credentials.token`. -/
def tokenRequiredMessage : String :=
  "Configuration must provide a Personal Access Token. See https://www.ibm.com/docs/en/targetprocess/tp-dev-hub/saas?topic=v1-authentication for details."

/-- The message of the error that actually escapes `loadConfig` when the
token is missing: the inner `McpError` is caught by the surrounding
`try`/`catch` and re-wrapped as `Error parsing config file: <its message>`. -/
def tokenFailureMessage : String :=
  "Error parsing config file: " ++
    JsError.messageOrString (.mcpError internalErrorCode tokenRequiredMessage)

/-- Function `loadConfig` of `src/server.ts`: try the environment variables first;
fall back to the config file at `configPath dirname` (`dirname` is the
module's `__dirname`, `fs` maps a path to the state of the file there).
A thrown error is returned in the `Except` error component. -/
def loadConfig (env : Env) (dirname : String) (fs : String → FileState) :
    Except JsError ParsedJson :=
  if truthy env.tpDomain && truthy env.tpToken then
    .ok { domain := env.tpDomain, credentials := some { token := env.tpToken } }
  else
    match fs (configPath dirname) with
    | .missing =>
        .error (.mcpError internalErrorCode noConfigMessage)
    | .malformed parseMessage =>
        .error (.mcpError internalErrorCode
          ("Error parsing config file: " ++ parseMessage))
    | .parsed config =>
        if !(truthy (config.credentials.bind CredJson.token)) then
          .error (.mcpError internalErrorCode tokenFailureMessage)
        else
          .ok config

/-- Message of the `McpError` thrown by the env-only `loadConfig` variant
(the unnamed source file) when either variable is falsy. -/
def envRequiredMessage : String :=
  "TP_DOMAIN and TP_TOKEN must be set in the MCP server environment configuration. " ++
    "See https://www.ibm.com/docs/en/targetprocess/tp-dev-hub/saas?topic=v1-authentication for token details."

/-- Function `loadConfig` of the unnamed variant source file: environment variables
only, no file fallback. -/
def loadConfigEnvOnly (env : Env) : Except JsError ParsedJson :=
  if !(truthy env.tpDomain) || !(truthy env.tpToken) then
    .error (.mcpError internalErrorCode envRequiredMessage)
  else
    .ok { domain := env.tpDomain, credentials := some { token := env.tpToken } }

/-- A tool descriptor as returned by discovery: `{ name, inputSchema }`.
The schema body is opaque to this layer. -/
structure ToolDescriptor where
  name : String
  inputSchema : String
deriving DecidableEq, Repr

/-- Modelled from the spec: `SearchTool.getDefinition()` is static metadata
(the concrete tool classes are external collaborators); the spec fixes its
registry identifier as `search_entities`.  The schema body is opaque. -/
def SearchTool.getDefinition : ToolDescriptor :=
  { name := "search_entities", inputSchema := "searchSchema" }

/-- Modelled from the spec: `GetEntityTool.getDefinition()`, identifier
`get_entity`. -/
def GetEntityTool.getDefinition : ToolDescriptor :=
  { name := "get_entity", inputSchema := "getSchema" }

/-- Modelled from the spec: `CreateEntityTool.getDefinition()`, identifier
`create_entity`. -/
def CreateEntityTool.getDefinition : ToolDescriptor :=
  { name := "create_entity", inputSchema := "createSchema" }

/-- Modelled from the spec: `UpdateEntityTool.getDefinition()`, identifier
`update_entity`. -/
def UpdateEntityTool.getDefinition : ToolDescriptor :=
  { name := "update_entity", inputSchema := "updateSchema" }

/-- Modelled from the spec: `InspectObjectTool.getDefinition()`, identifier
`inspect_object`. -/
def InspectObjectTool.getDefinition : ToolDescriptor :=
  { name := "inspect_object", inputSchema := "inspectSchema" }

/-- The five registered dispatch identifiers (the `case` labels of the
dispatch `switch`). -/
def registeredToolNames : List String :=
  ["search_entities", "get_entity", "create_entity", "update_entity", "inspect_object"]

/-- The five tool instances held in `this.tools`, abstracted by their
`execute` behaviour: `α` is the tool-defined result shape, `β` the opaque
argument mapping.  `execute` either resolves with a result or rejects with
a thrown value. -/
structure ToolSet (α β : Type) where
  search : β → Except JsError α
  get : β → Except JsError α
  create : β → Except JsError α
  update : β → Except JsError α
  inspect : β → Except JsError α

/-- The runtime state a handler closure can see: the tool registry and the
outcome of the background cache warm-up
(`service.initializeEntityTypeCache()`). -/
structure ServerRuntime (α β : Type) where
  tools : ToolSet α β
  cacheWarmup : Except JsError Unit

/-- The result object of the list-tools handler: `{ tools: [...] }`. -/
structure ListToolsResult where
  tools : List ToolDescriptor
deriving DecidableEq, Repr

/-- One `{ type: 'text', text: ... }` content item. -/
structure TextContent where
  type : String
  text : String
deriving DecidableEq, Repr

/-- The error envelope returned (not thrown) by the dispatch handler:
`{ content: [...], isError: true }`. -/
structure ErrorEnvelope where
  content : List TextContent
  isError : Bool
deriving DecidableEq, Repr

/-- A resolved dispatch value: either the tool's own result, returned
verbatim, or a normalized error envelope. -/
inductive CallToolResult (α : Type) where
  | success (value : α)
  | errorEnvelope (envelope : ErrorEnvelope)
deriving DecidableEq, Repr

/-- The list-tools handler of `src/server.ts`: ignores all runtime state
and returns the five static definitions in source order. -/
def listToolsHandler {α β : Type} (_s : ServerRuntime α β) : ListToolsResult :=
  { tools := [SearchTool.getDefinition, GetEntityTool.getDefinition,
      CreateEntityTool.getDefinition, UpdateEntityTool.getDefinition,
      InspectObjectTool.getDefinition] }

/-- The `try` block of the dispatch handler: the `switch` on
`request.params.name`, whose default case throws a `MethodNotFound`
`McpError` naming the offending tool. -/
def toolExecution {α β : Type} (tools : ToolSet α β) (name : String) (args : β) :
    Except JsError α :=
  match name with
  | "search_entities" => tools.search args
  | "get_entity" => tools.get args
  | "create_entity" => tools.create args
  | "update_entity" => tools.update args
  | "inspect_object" => tools.inspect args
  | _ => .error (.mcpError methodNotFoundCode ("Unknown tool: " ++ name))

/-- The dispatch (call-tool) handler of `src/server.ts`: run the `switch`;
on a throw, re-throw `McpError`s unchanged and convert anything else into
a resolved `{ content: [{type:'text', text: 'Target Process API error: ' +
(message or string form)}], isError: true }` envelope. -/
def callToolHandler {α β : Type} (s : ServerRuntime α β) (name : String) (args : β) :
    Except JsError (CallToolResult α) :=
  match toolExecution s.tools name args with
  | .ok value => .ok (.success value)
  | .error (.mcpError code message) => .error (.mcpError code message)
  | .error (.plainError message) =>
      .ok (.errorEnvelope
        { content := [{ type := "text", text := "Target Process API error: " ++ message }],
          isError := true })
  | .error (.nonError str) =>
      .ok (.errorEnvelope
        { content := [{ type := "text", text := "Target Process API error: " ++ str }],
          isError := true })

/-- The list-tools handler as transcribed from the unnamed variant source
file (its `setupHandlers` is textually identical to the one of
`src/server.ts`). -/
def listToolsHandlerB {α β : Type} (_s : ServerRuntime α β) : ListToolsResult :=
  { tools := [SearchTool.getDefinition, GetEntityTool.getDefinition,
      CreateEntityTool.getDefinition, UpdateEntityTool.getDefinition,
      InspectObjectTool.getDefinition] }

/-- The `switch` body of the dispatch handler of the unnamed variant
source file. -/
def toolExecutionB {α β : Type} (tools : ToolSet α β) (name : String) (args : β) :
    Except JsError α :=
  match name with
  | "search_entities" => tools.search args
  | "get_entity" => tools.get args
  | "create_entity" => tools.create args
  | "update_entity" => tools.update args
  | "inspect_object" => tools.inspect args
  | _ => .error (.mcpError methodNotFoundCode ("Unknown tool: " ++ name))

/-- The dispatch handler as transcribed from the unnamed variant source
file. -/
def callToolHandlerB {α β : Type} (s : ServerRuntime α β) (name : String) (args : β) :
    Except JsError (CallToolResult α) :=
  match toolExecutionB s.tools name args with
  | .ok value => .ok (.success value)
  | .error (.mcpError code message) => .error (.mcpError code message)
  | .error (.plainError message) =>
      .ok (.errorEnvelope
        { content := [{ type := "text", text := "Target Process API error: " ++ message }],
          isError := true })
  | .error (.nonError str) =>
      .ok (.errorEnvelope
        { content := [{ type := "text", text := "Target Process API error: " ++ str }],
          isError := true })

/-- Method `initializeCache`: awaits the collaborator's warm-up inside
`try`/`catch`; a rejection is converted into a `console.error` log line
(returned here as the list of logged errors) and the method itself
resolves. -/
def initializeCache (warmup : Except JsError Unit) : Except JsError (List JsError) :=
  match warmup with
  | .ok _ => .ok []
  | .error e => .ok [e]

/-- Whether `needle` occurs as a contiguous substring of `hay` (on the
underlying character lists). -/
def strContains (hay needle : String) : Bool :=
  hay.data.tails.any (fun t => t.take needle.data.length == needle.data)

/-- The constructor prefix of `TargetProcessServer` (server.ts variant):
`const config = loadConfig(); this.service = new TPService(config)`.  The
value is the configuration handed to `TPService`, or the startup error
that aborts construction before the handle exists. -/
def serviceConfig (env : Env) (dirname : String) (fs : String → FileState) :
    Except JsError ParsedJson :=
  loadConfig env dirname fs

/-- The constructor prefix of `TargetProcessServer` in the unnamed variant
source file. -/
def serviceConfigB (env : Env) : Except JsError ParsedJson :=
  loadConfigEnvOnly env

/-- Shared sample tool set for concrete witnesses: every tool rejects with
a plain (non-protocol) error. -/
def sampleTools : ToolSet Nat Nat :=
  { search := fun _ => .error (.plainError "boom")
    get := fun _ => .error (.plainError "boom")
    create := fun _ => .error (.plainError "boom")
    update := fun _ => .error (.plainError "boom")
    inspect := fun _ => .error (.plainError "boom") }

/-- Shared sample runtime for concrete witnesses. -/
def sampleRuntime : ServerRuntime Nat Nat :=
  { tools := sampleTools, cacheWarmup := .ok () }

/-- Left-cancellation of string concatenation, used to tell wrapped error
messages apart. -/
theorem string_append_left_cancel {a b c : String} (h : a ++ b = a ++ c) : b = c := by
  have hd := congrArg String.data h
  simp only [String.data_append] at hd
  have h2 := List.append_cancel_left hd
  cases b; cases c
  exact congrArg String.mk h2

/-- C1: when the tool execution of a dispatch invocation throws, the
handler re-raises an `McpError` unchanged, and resolves any other failure
into a `{ content: [{type:'text', text}], isError: true }` payload whose
text is derived from the failure's message (or its string form); the two
propagation paths are mutually exclusive for each invocation. -/
theorem C1_tool_failure_propagation {α β : Type} (s : ServerRuntime α β)
    (name : String) (args : β) (e : JsError)
    (hthrow : toolExecution s.tools name args = .error e) :
    (e.isMcpError = true → callToolHandler s name args = .error e) ∧
    (e.isMcpError = false → callToolHandler s name args =
      .ok (.errorEnvelope
        { content := [{ type := "text", text := "Target Process API error: " ++ e.messageOrString }],
          isError := true })) ∧
    (∀ r, callToolHandler s name args = .ok r → e.isMcpError = false) ∧
    (∀ e', callToolHandler s name args = .error e' → e.isMcpError = true ∧ e' = e) := by
  unfold callToolHandler
  rw [hthrow]
  cases e <;> simp [JsError.isMcpError, JsError.messageOrString]

/-- Witness for C1 at a concrete runtime: a plain rejection from
`get_entity` resolves into the error envelope. -/
theorem C1_witness :
    callToolHandler sampleRuntime "get_entity" 0 =
      .ok (.errorEnvelope
        { content := [{ type := "text", text := "Target Process API error: boom" }],
          isError := true }) :=
  (C1_tool_failure_propagation sampleRuntime "get_entity" 0 (.plainError "boom") rfl).2.1 rfl

/-- C2: dispatching any name outside the five registered identifiers
raises the `MethodNotFound` protocol error carrying the offending name,
and never resolves (in particular never yields an error envelope). -/
theorem C2_unknown_tool_protocol_fatal {α β : Type} (s : ServerRuntime α β)
    (name : String) (args : β) (h : name ∉ registeredToolNames) :
    callToolHandler s name args
      = .error (.mcpError methodNotFoundCode ("Unknown tool: " ++ name)) ∧
    ∀ r, callToolHandler s name args ≠ .ok r := by
  simp only [registeredToolNames, List.mem_cons, List.not_mem_nil, or_false] at h
  push_neg at h
  obtain ⟨h1, h2, h3, h4, h5⟩ := h
  have hmain : callToolHandler s name args
      = .error (.mcpError methodNotFoundCode ("Unknown tool: " ++ name)) := by
    unfold callToolHandler toolExecution
    split
    all_goals simp_all
  exact ⟨hmain, fun r hr => by rw [hmain] at hr; exact Except.noConfusion hr⟩

/-- Witness for C2: dispatching `delete_entity` on the sample runtime. -/
theorem C2_witness :
    callToolHandler sampleRuntime "delete_entity" 0
      = .error (.mcpError methodNotFoundCode ("Unknown tool: " ++ "delete_entity")) :=
  (C2_unknown_tool_protocol_fatal sampleRuntime "delete_entity" 0 (by decide)).1

/-- C3: when the environment variables are not both truthy, `loadConfig`
(server.ts variant) consults only the file at the fixed module-relative
path `configPath dirname`; if that file is missing it throws the
`InternalError` whose message names both remediation options. -/
theorem C3_file_fallback_missing_file (env : Env) (dirname : String)
    (fs : String → FileState)
    (henv : (truthy env.tpDomain && truthy env.tpToken) = false) :
    (∀ fs', fs' (configPath dirname) = fs (configPath dirname) →
      loadConfig env dirname fs' = loadConfig env dirname fs) ∧
    (fs (configPath dirname) = .missing →
      loadConfig env dirname fs = .error (.mcpError internalErrorCode noConfigMessage)) ∧
    strContains noConfigMessage "environment variables (TP_DOMAIN and TP_TOKEN)" = true ∧
    strContains noConfigMessage "create config/targetprocess.json" = true := by
  refine ⟨?_, ?_, by decide, by decide⟩
  · intro fs' hsame
    unfold loadConfig
    rw [henv, hsame]
  · intro hmiss
    unfold loadConfig
    rw [henv, hmiss]
    rfl

/-- Witness for C3 with an empty environment and an empty filesystem. -/
theorem C3_witness :
    loadConfig { tpDomain := none, tpToken := none } "/srv/build" (fun _ => .missing)
      = .error (.mcpError internalErrorCode noConfigMessage) :=
  (C3_file_fallback_missing_file { tpDomain := none, tpToken := none } "/srv/build"
    (fun _ => .missing) rfl).2.1 rfl

/-- C4: with both environment variables present and non-empty,
`loadConfig` (server.ts variant) returns them verbatim as
`{ domain, credentials: { token } }` and its result does not depend on
the filesystem. -/
theorem C4_env_config_verbatim_no_fs (env : Env) (dirname : String)
    (hd : truthy env.tpDomain = true) (ht : truthy env.tpToken = true) :
    (∀ fs, loadConfig env dirname fs =
      .ok { domain := env.tpDomain, credentials := some { token := env.tpToken } }) ∧
    (∀ fs fs', loadConfig env dirname fs = loadConfig env dirname fs') := by
  have hok : ∀ fs, loadConfig env dirname fs =
      .ok { domain := env.tpDomain, credentials := some { token := env.tpToken } } := by
    intro fs
    unfold loadConfig
    rw [hd, ht]
    rfl
  exact ⟨hok, fun fs fs' => by rw [hok fs, hok fs']⟩

/-- Witness for C4 at a concrete environment pair. -/
theorem C4_witness :
    loadConfig { tpDomain := some "acme.tpondemand.com", tpToken := some "tok123" }
        "/srv/build" (fun _ => .missing)
      = .ok { domain := some "acme.tpondemand.com",
              credentials := some { token := some "tok123" } } :=
  (C4_env_config_verbatim_no_fs
    { tpDomain := some "acme.tpondemand.com", tpToken := some "tok123" }
    "/srv/build" rfl rfl).1 (fun _ => .missing)

/-- C5 as stated is false: with the env vars unset, a config file whose
content is `{ "credentials": { "token": "secret" } }` (no `domain` field)
is accepted by `loadConfig`, so `TPService` is constructed from a
configuration with no (hence non-truthy) domain. -/
theorem C5_counterexample_domain_not_validated :
    serviceConfig { tpDomain := none, tpToken := none } "/srv/build"
        (fun _ => .parsed { domain := none, credentials := some { token := some "secret" } })
      = .ok { domain := none, credentials := some { token := some "secret" } } ∧
    truthy (ParsedJson.domain
        { domain := none, credentials := some { token := some "secret" } }) = false :=
  ⟨rfl, rfl⟩

/-- C5 amended: every configuration handed to `TPService` has a truthy
`credentials.token` (both variants); the env-only variant, and the
env-based path of the server.ts variant, additionally guarantee a truthy
domain — but the file-based path does not validate the domain. -/
theorem C5_amended_token_invariant :
    (∀ env dirname fs cfg, serviceConfig env dirname fs = .ok cfg →
      truthy (cfg.credentials.bind CredJson.token) = true) ∧
    (∀ env cfg, serviceConfigB env = .ok cfg →
      truthy (cfg.credentials.bind CredJson.token) = true ∧ truthy cfg.domain = true) ∧
    (∀ env dirname fs cfg, serviceConfig env dirname fs = .ok cfg →
      (truthy env.tpDomain && truthy env.tpToken) = true → truthy cfg.domain = true) := by
  refine ⟨?_, ?_, ?_⟩
  · intro env dirname fs cfg h
    unfold serviceConfig loadConfig at h
    split at h
    · rename_i henv
      rw [Bool.and_eq_true] at henv
      cases h
      simpa using henv.2
    · split at h
      · exact absurd h (by simp)
      · exact absurd h (by simp)
      · split at h
        · exact absurd h (by simp)
        · rename_i htok
          cases h
          simpa using htok
  · intro env cfg h
    unfold serviceConfigB loadConfigEnvOnly at h
    split at h
    · exact absurd h (by simp)
    · rename_i henv
      simp only [Bool.or_eq_true, Bool.not_eq_true'] at henv
      push_neg at henv
      cases h
      refine ⟨by simpa using henv.2, by simpa using henv.1⟩
  · intro env dirname fs cfg h henv
    unfold serviceConfig loadConfig at h
    rw [henv] at h
    cases h
    rw [Bool.and_eq_true] at henv
    simpa using henv.1

/-- Witness for C5 amended: a concrete env-only construction has a truthy
token. -/
theorem C5_amended_witness :
    truthy ((ParsedJson.credentials
      { domain := some "acme", credentials := some { token := some "tok" } }).bind
        CredJson.token) = true :=
  C5_amended_token_invariant.1 { tpDomain := some "acme", tpToken := some "tok" }
    "/srv/build" (fun _ => .missing)
    { domain := some "acme", credentials := some { token := some "tok" } } rfl

/-- C6: a parsed config file with no `credentials.token` makes `loadConfig`
throw an `InternalError` whose message references the token requirement and
differs both from the missing-file message and from any malformed-file
message whose parse text does not itself mention the token requirement
(real `JSON.parse` failures never do). -/
theorem C6_token_missing_distinct_failure (env : Env) (dirname : String)
    (fs : String → FileState) (cfg : ParsedJson)
    (henv : (truthy env.tpDomain && truthy env.tpToken) = false)
    (hfs : fs (configPath dirname) = .parsed cfg)
    (htok : cfg.credentials.bind CredJson.token = none) :
    loadConfig env dirname fs = .error (.mcpError internalErrorCode tokenFailureMessage) ∧
    strContains tokenFailureMessage "Personal Access Token" = true ∧
    tokenFailureMessage ≠ noConfigMessage ∧
    (∀ p, strContains p "Personal Access Token" = false →
      tokenFailureMessage ≠ "Error parsing config file: " ++ p) := by
  refine ⟨?_, by decide, by decide, ?_⟩
  · unfold loadConfig
    rw [henv, hfs]
    simp [truthy, htok]
  · intro p hp heq
    unfold tokenFailureMessage at heq
    have hpe := string_append_left_cancel heq
    rw [← hpe] at hp
    exact absurd hp (by decide)

/-- Witness for C6: env unset, file parsed with credentials present but no
token field. -/
theorem C6_witness :
    loadConfig { tpDomain := none, tpToken := none } "/srv/build"
        (fun _ => .parsed { domain := some "acme", credentials := some { token := none } })
      = .error (.mcpError internalErrorCode tokenFailureMessage) :=
  (C6_token_missing_distinct_failure { tpDomain := none, tpToken := none } "/srv/build"
    (fun _ => .parsed { domain := some "acme", credentials := some { token := none } })
    { domain := some "acme", credentials := some { token := none } } rfl rfl rfl).1

/-- C7: discovery returns exactly five descriptors, with the registered
identifiers in a fixed order, independent of any runtime state (tools and
warm-up outcome alike). -/
theorem C7_discovery_five_stable :
    ∀ (α β : Type) (s s' : ServerRuntime α β),
      listToolsHandler s = listToolsHandler s' ∧
      (listToolsHandler s).tools.length = 5 ∧
      (listToolsHandler s).tools.map ToolDescriptor.name = registeredToolNames :=
  fun _ _ _ _ => ⟨rfl, rfl, rfl⟩

/-- C8: a failing background cache warm-up is logged and swallowed by
`initializeCache` (which never rejects), and neither the discovery handler
nor the dispatch handler depends on the warm-up outcome. -/
theorem C8_warmup_failure_logged_only :
    (∀ w e, initializeCache w ≠ .error e) ∧
    (∀ e, initializeCache (.error e) = .ok [e]) ∧
    (∀ (α β : Type) (tools : ToolSet α β) (w w' : Except JsError Unit),
      listToolsHandler { tools := tools, cacheWarmup := w }
        = listToolsHandler { tools := tools, cacheWarmup := w' } ∧
      ∀ name args,
        callToolHandler (α := α) { tools := tools, cacheWarmup := w } name args
          = callToolHandler { tools := tools, cacheWarmup := w' } name args) := by
  refine ⟨?_, fun _ => rfl, fun _ _ _ _ _ => ⟨rfl, fun _ _ => rfl⟩⟩
  intro w e h
  cases w <;> exact Except.noConfusion h

/-- C9: every non-protocol-fatal failure thrown during tool execution is
rendered as exactly the fixed prefix `Target Process API error: ` followed
by the failure's message (or string form); the prefix is never empty, so
the text never equals the bare message. -/
theorem C9_error_text_format {α β : Type} (s : ServerRuntime α β) (name : String)
    (args : β) (e : JsError)
    (hthrow : toolExecution s.tools name args = .error e)
    (hnot : e.isMcpError = false) :
    callToolHandler s name args =
      .ok (.errorEnvelope
        { content := [{ type := "text", text := "Target Process API error: " ++ e.messageOrString }],
          isError := true }) ∧
    "Target Process API error: " ++ e.messageOrString ≠ e.messageOrString := by
  constructor
  · unfold callToolHandler
    rw [hthrow]
    cases e <;> simp_all [JsError.isMcpError, JsError.messageOrString]
  · intro h
    have hlen := congrArg (fun s => s.data.length) h
    simp [String.data_append] at hlen
    omega

/-- Witness for C9 at a concrete runtime: the rejected `search_entities`
call resolves to the prefixed text. -/
theorem C9_witness :
    callToolHandler sampleRuntime "search_entities" 0 =
      .ok (.errorEnvelope
        { content := [{ type := "text", text := "Target Process API error: boom" }],
          isError := true }) :=
  (C9_error_text_format sampleRuntime "search_entities" 0 (.plainError "boom") rfl rfl).1

/-- C10: the discovery and dispatch handlers transcribed from the two
source variants are extensionally equal, while their `loadConfig`s differ:
at an empty environment with a valid config file, the server.ts variant
succeeds and the env-only variant throws. -/
theorem C10_variants_extensionally_equal :
    (∀ (α β : Type) (s : ServerRuntime α β), listToolsHandler s = listToolsHandlerB s) ∧
    (∀ (α β : Type) (s : ServerRuntime α β) (name : String) (args : β),
      callToolHandler s name args = callToolHandlerB s name args) ∧
    serviceConfig { tpDomain := none, tpToken := none } "/srv/build"
        (fun _ => .parsed { domain := some "acme", credentials := some { token := some "secret" } })
      = .ok { domain := some "acme", credentials := some { token := some "secret" } } ∧
    serviceConfigB { tpDomain := none, tpToken := none }
      = .error (.mcpError internalErrorCode envRequiredMessage) :=
  ⟨fun _ _ _ => rfl, fun _ _ _ _ _ => rfl, rfl, rfl⟩

/-- Witness for C7 at the concrete sample runtime. -/
theorem C7_witness :
    (listToolsHandler sampleRuntime).tools.map ToolDescriptor.name = registeredToolNames :=
  (C7_discovery_five_stable Nat Nat sampleRuntime sampleRuntime).2.2

/-- Witness for C8 at a concrete warm-up rejection. -/
theorem C8_witness :
    initializeCache (.error (.plainError "network unreachable"))
      = .ok [.plainError "network unreachable"] :=
  C8_warmup_failure_logged_only.2.1 (.plainError "network unreachable")

/-- Witness for C10 at a concrete dispatch request. -/
theorem C10_witness :
    callToolHandler sampleRuntime "get_entity" 0
      = callToolHandlerB sampleRuntime "get_entity" 0 :=
  C10_variants_extensionally_equal.2.1 Nat Nat sampleRuntime "get_entity" 0

end TPServer
